import Mathlib

/-! Shallow embedding of the two secret providers of the repository
(pkg/providers/k8s/k8s.go and pkg/providers/gcpsecrets/gcpsecrets.go).

Conventions of the embedding:
* A Go error value is modelled by its message string (`GoError`); all
  errors in this code are built with fmt.Errorf, and wrapping with %w or %s
  concatenates the wrapped message onto the format prefix.
* A Go function returning `(T, error)` where every error return pairs the
  error with the zero value is modelled as `Except GoError T`.  Where the
  non-zero value is returned together with the error (getKubeConfig), the
  model returns the pair `T × Option GoError`.  Where the Go code can
  panic (gcpsecrets.getSecretBytes indexing splitKey[1]), the model
  returns `GoOutcome T`, which has a third, `panicked` constructor.
* A Go `[]byte` payload is modelled as `Option String`: `none` is the nil
  slice, `some s` a slice with contents `s`; `string(b)` is `goString`.
* A Go `map[K]V` is modelled as an association list `List (K × V)`;
  lookup in a nil map (`none` from `Except.error`) yields zero, not-found.
* External SDK calls (the Kubernetes client, the Secret Manager client,
  yaml.Unmarshal, os.Stat, os.Getenv, os.UserHomeDir) are parameters of
  the embedded functions: an `OsWorld` / backend record of oracles.
-/

namespace Vals

/-- A Go error value, modelled by its message string. -/
structure GoError where
  msg : String
deriving DecidableEq, Repr

/-- Outcome of a Go call that can return a value, return an error, or
panic at runtime. -/
inductive GoOutcome (α : Type) where
  | ok (a : α)
  | err (e : GoError)
  | panicked (msg : String)
deriving DecidableEq, Repr

/-- The api.StaticConfig interface: `String(name)` (empty string when the
option is unset) and `Exists(name)`.  Field names `string`/`existsKey`
stand for the Go methods `String`/`Exists` (both are reserved-ish in
Lean). -/
structure StaticConfig where
  string : String → String
  existsKey : String → Bool

/-- Helper for `goSplit`, structural recursion over the character list. -/
def goSplitAux (sep : Char) : List Char → List String
  | [] => [""]
  | c :: cs =>
    match goSplitAux sep cs with
    | [] => []
    | r :: rs => if c = sep then "" :: r :: rs else (String.mk (c :: r.data)) :: rs

/-- Go strings.Split with a one-character separator: every maximal run
between separators, `[""]` on the empty string. -/
def goSplit (s : String) (sep : Char) : List String := goSplitAux sep s.data

/-- Go strings.SplitN with n = 2 and a one-character separator: at most
two parts, split at the first separator; one part when the separator is
absent. -/
def goSplitN2 (s : String) (sep : Char) : List String :=
  match goSplit s sep with
  | [] => [s]
  | [x] => [x]
  | x :: rest => [x, String.intercalate (String.mk [sep]) rest]

/-- Go string([]byte) conversion: the nil slice converts to "". -/
def goString : Option String → String
  | none => ""
  | some s => s

namespace k8s

/-- The k8s provider struct (the logger field is dropped: it only feeds a
debug line). -/
structure provider where
  KubeConfigPath : String
  KubeContext : String
deriving DecidableEq, Repr

/-- The ambient OS state consulted by getKubeConfig: os.Stat success on a
path, the KUBECONFIG environment variable ("" when unset, as os.Getenv
reports it), and os.UserHomeDir. -/
structure OsWorld where
  statOk : String → Bool
  kubeconfigEnv : String
  userHomeDir : Except GoError String

/-- Embeds getKubeConfig of k8s.go.  Returns the (string, error) pair the
Go function returns: the error returns at the first two stages pair the
offending path with the error.  Note the Go code does not return inside
the first two `if` blocks when os.Stat succeeds: a set-and-existing
kubeConfigPath parameter, and a set-and-existing KUBECONFIG variable,
both fall through. -/
def getKubeConfig (w : OsWorld) (cfg : StaticConfig) : String × Option GoError :=
  -- Use kubeConfigPath from URI parameters if specified
  if cfg.string "kubeConfigPath" ≠ "" ∧ ¬ w.statOk (cfg.string "kubeConfigPath") then
    (cfg.string "kubeConfigPath",
      some ⟨"kubeConfigPath URI parameter is set but path " ++ cfg.string "kubeConfigPath" ++ " does not exist."⟩)
  else
    -- Use path in KUBECONFIG environment variable if set
    if w.kubeconfigEnv ≠ "" ∧ ¬ w.statOk w.kubeconfigEnv then
      (w.kubeconfigEnv,
        some ⟨"KUBECONFIG environment variable is set but path " ++ w.kubeconfigEnv ++ " does not exist."⟩)
    else
      -- Use default kubeconfig path if it exists
      match w.userHomeDir with
      | .error e => ("", some ⟨"An error occurred getting the user\x27s home directory: " ++ e.msg⟩)
      | .ok homeDir =>
        let defaultPath := homeDir ++ "/.kube/config"
        if w.statOk defaultPath then (defaultPath, none)
        else ("", some ⟨"No path was found in any of the following: kubeContext URI param, KUBECONFIG environment variable, or default path " ++ defaultPath ++ " does not exist."⟩)

/-- Embeds getKubeContext of k8s.go. -/
def getKubeContext (cfg : StaticConfig) : String :=
  if cfg.string "kubeContext" ≠ "" then cfg.string "kubeContext" else ""

/-- Embeds New of k8s.go: on a getKubeConfig error the message is printed
and the zero-valued provider is returned; otherwise the resolved path and
context are stored. -/
def New (w : OsWorld) (cfg : StaticConfig) : provider :=
  match getKubeConfig w cfg with
  | (_, some _) => { KubeConfigPath := "", KubeContext := "" }
  | (kubeConfig, none) => { KubeConfigPath := kubeConfig, KubeContext := getKubeContext cfg }

/-- The getSecret backend call of k8s.go (config build + client
construction + fetch, all SDK calls), as an oracle:
namespace → secretName → kubeConfigPath → kubeContext → key-value payload
or error.  Byte values are modelled as strings. -/
def K8sGetSecret : Type := String → String → String → String → Except GoError (List (String × String))

/-- The error GetString returns for a malformed path. -/
def invalidPathError (path : String) : GoError :=
  ⟨"Invalid path " ++ path ++ ". Path must be in the format <namespace>/<secret>/<key>"⟩

/-- The error GetString returns when `err != nil || !exists` after the
fetch. -/
def keyNotFoundError (key ns secretName : String) : GoError :=
  ⟨"Key " ++ key ++ " does not exist in " ++ ns ++ "/" ++ secretName⟩

/-- Embeds GetString of k8s.go.  `getSecret` is the backend oracle.  The
source splits on "/", requires exactly 3 segments, checks
p.KubeConfigPath, fetches, then indexes the key; a fetch error and a
missing key take the same `if err != nil || !exists` branch. -/
def GetString (getSecret : K8sGetSecret) (p : provider) (path : String) : Except GoError String :=
  match goSplit path '/' with
  | [ns, secretName, key] =>
    if p.KubeConfigPath = "" then .error ⟨"No Kubeconfig path was found"⟩
    else
      match getSecret ns secretName p.KubeConfigPath p.KubeContext with
      | .error _ => .error (keyNotFoundError key ns secretName)
      | .ok secretData =>
        match secretData.lookup key with
        | none => .error (keyNotFoundError key ns secretName)
        | some secret => .ok secret
  | _ => .error (invalidPathError path)

set_option linter.unusedVariables false

/-- Embeds GetStringMap of k8s.go: the body ignores the receiver and the
backend entirely and returns (nil, error).  The oracle parameter is kept
in the signature to state independence from it. -/
def GetStringMap (getSecret : K8sGetSecret) (p : provider) (path : String) :
    Option (List (String × String)) × Option GoError :=
  (none, some ⟨"This provider does not support values from URI fragments"⟩)

set_option linter.unusedVariables true

end k8s

namespace gcpsecrets

/-- The gcpsecrets provider struct (the ctx and client fields carry no
state the embedding needs). -/
structure provider where
  version : String
  optional : Bool
  fallback : Option String
deriving DecidableEq, Repr

/-- Go strconv.ParseBool: the accepted spellings, `none` on anything
else. -/
def ParseBool (str : String) : Option Bool :=
  if str = "1" ∨ str = "t" ∨ str = "T" ∨ str = "TRUE" ∨ str = "true" ∨ str = "True" then some true
  else if str = "0" ∨ str = "f" ∨ str = "F" ∨ str = "FALSE" ∨ str = "false" ∨ str = "False" then some false
  else none

/-- Embeds New of gcpsecrets.go: version defaults to "latest"; `optional`
is parsed leniently (an unparsable value leaves the field false);
`fallback_value` is presence-tested with cfg.Exists. -/
def New (cfg : StaticConfig) : provider :=
  let version := cfg.string "version"
  let optional := cfg.string "optional"
  { version := if version = "" then "latest" else version
    optional :=
      if optional ≠ "" then
        match ParseBool optional with
        | some val => val
        | none => false
      else false
    fallback :=
      if cfg.existsKey "fallback_value" then some (cfg.string "fallback_value") else none }

/-- The Secret Manager SDK, as oracles: sm.NewClient and
c.AccessSecretVersion (by full resource name).  The payload is a Go
[]byte, i.e. `Option String`. -/
structure GcpBackend where
  newClient : Except GoError Unit
  accessSecretVersion : String → Except GoError (Option String)

/-- The resource name getSecretBytes builds with fmt.Sprintf. -/
def gcpName (proj secretName version : String) : String :=
  "projects/" ++ proj ++ "/secrets/" ++ secretName ++ "/versions/" ++ version

/-- Embeds getSecretBytes of gcpsecrets.go.  A client-construction error
returns immediately (unwrapped).  The key is SplitN-split on "/" into at
most 2 parts and splitKey[1] is indexed unconditionally: when the key has
no "/" the slice has length 1 and Go panics with an index-out-of-range
runtime error.  On a fetch error: optional, then fallback, then the
wrapped error. -/
def getSecretBytes (b : GcpBackend) (p : provider) (key : String) : GoOutcome (Option String) :=
  match b.newClient with
  | .error e => .err e
  | .ok _ =>
    match goSplitN2 key '/' with
    | [proj, secretName] =>
      match b.accessSecretVersion (gcpName proj secretName p.version) with
      | .ok payload => .ok payload
      | .error e =>
        if p.optional then .ok none
        else
          match p.fallback with
          | some fb => .ok (some fb)
          | none => .err ⟨"failed to get secret: " ++ e.msg⟩
    | _ => .panicked "runtime error: index out of range [1] with length 1"

/-- Embeds GetString of gcpsecrets.go: string(secret) of the bytes. -/
def GetString (b : GcpBackend) (p : provider) (key : String) : GoOutcome String :=
  match getSecretBytes b p key with
  | .ok secret => .ok (goString secret)
  | .err e => .err e
  | .panicked m => .panicked m

/-- Embeds GetStringMap of gcpsecrets.go.  yaml.Unmarshal is an oracle:
it receives the input bytes and the initial (empty, non-nil) map and
returns the map it populated, or an error.  The returned map is `some`
on success — GetStringMap never returns a nil map together with a nil
error. -/
def GetStringMap {α : Type} (yamlUnmarshal : String → List (String × α) → Except GoError (List (String × α)))
    (b : GcpBackend) (p : provider) (key : String) : GoOutcome (Option (List (String × α))) :=
  let secretMap : List (String × α) := []
  match GetString b p key with
  | .err e => .err e
  | .panicked m => .panicked m
  | .ok secretString =>
    match yamlUnmarshal secretString secretMap with
    | .error e => .err ⟨"failed to unmarshal secret: " ++ e.msg⟩
    | .ok m => .ok (some m)

end gcpsecrets

end Vals

namespace Vals

/-! Sample configurations, worlds and backend oracles used by the
closed theorems below. -/

def cfgExplicit : StaticConfig :=
  ⟨fun name => if name = "kubeConfigPath" then "/explicit/kubeconfig" else "", fun _ => false⟩

def worldExplicitExists : k8s.OsWorld :=
  { statOk := fun p => p == "/explicit/kubeconfig" || p == "/home/user/.kube/config"
    kubeconfigEnv := ""
    userHomeDir := .ok "/home/user" }

def worldEnvMissing : k8s.OsWorld :=
  { statOk := fun p => p == "/explicit/kubeconfig" || p == "/home/user/.kube/config"
    kubeconfigEnv := "/env/kubeconfig"
    userHomeDir := .ok "/home/user" }

def k8sSampleFetch : k8s.K8sGetSecret :=
  fun ns secretName kubeConfigPath kubeContext =>
    .ok [("key", ns ++ "|" ++ secretName ++ "|" ++ kubeConfigPath ++ "|" ++ kubeContext)]

def k8sFetchFail : k8s.K8sGetSecret :=
  fun _ _ _ _ => .error ⟨"Unable to get the secret from Kubernetes: connection refused"⟩

def k8sFetchNoKey : k8s.K8sGetSecret :=
  fun _ _ _ _ => .ok [("otherkey", "value")]

def k8sProviderSample : k8s.provider := ⟨"/home/user/.kube/config", "ctx"⟩

def gcpBackendOk : gcpsecrets.GcpBackend := ⟨.ok (), fun _ => .ok (some "payload")⟩

def gcpBackendFetchFail : gcpsecrets.GcpBackend :=
  ⟨.ok (), fun _ => .error ⟨"rpc error: NotFound"⟩⟩

def gcpBackendConnFail : gcpsecrets.GcpBackend :=
  ⟨.error ⟨"connection refused"⟩, fun _ => .error ⟨"unreachable"⟩⟩

def gcpBackendEmptyDoc : gcpsecrets.GcpBackend := ⟨.ok (), fun _ => .ok (some "")⟩

def gcpPlainProvider : gcpsecrets.provider := ⟨"latest", false, none⟩

def gcpOptionalProvider : gcpsecrets.provider := ⟨"latest", true, some "fb"⟩

def cfgFallbackEmpty : StaticConfig :=
  ⟨fun name => if name = "fallback_value" then "" else "", fun name => name == "fallback_value"⟩

def yamlKeepMap : String → List (String × String) → Except GoError (List (String × String)) :=
  fun _ m => .ok m

/-- C1: getKubeConfig with an explicit, existing kubeConfigPath does NOT
return it: with no KUBECONFIG it falls through to the default home path,
and with a KUBECONFIG pointing at a missing file it returns the
KUBECONFIG error — so the environment variable is consulted even though
the explicit path is set and valid. -/
theorem c1_explicit_path_fallthrough_bug :
    cfgExplicit.string "kubeConfigPath" = "/explicit/kubeconfig" ∧
    worldExplicitExists.statOk "/explicit/kubeconfig" = true ∧
    k8s.getKubeConfig worldExplicitExists cfgExplicit = ("/home/user/.kube/config", none) ∧
    worldEnvMissing.statOk "/explicit/kubeconfig" = true ∧
    k8s.getKubeConfig worldEnvMissing cfgExplicit =
      ("/env/kubeconfig",
        some ⟨"KUBECONFIG environment variable is set but path /env/kubeconfig does not exist."⟩) := by
  refine ⟨rfl, rfl, ?_, rfl, ?_⟩ <;> decide

/-- C2: a key with no "/" separator makes getSecretBytes (and GetString)
panic with an index-out-of-range runtime error rather than return a
resolution error. -/
theorem c2_no_separator_panics :
    gcpsecrets.getSecretBytes gcpBackendOk gcpPlainProvider "mykey" =
      .panicked "runtime error: index out of range [1] with length 1" ∧
    gcpsecrets.GetString gcpBackendOk gcpPlainProvider "mykey" =
      .panicked "runtime error: index out of range [1] with length 1" := by
  constructor <;> decide

/-- C3 counterexample: a failing fetch and a successful fetch missing the
key produce the exact same error value from GetString — the two cases are
not distinguishable. -/
theorem c3_fetch_error_conflated_counterexample :
    k8s.GetString k8sFetchFail k8sProviderSample "ns/name/key" =
      .error (k8s.keyNotFoundError "key" "ns" "name") ∧
    k8s.GetString k8sFetchNoKey k8sProviderSample "ns/name/key" =
      .error (k8s.keyNotFoundError "key" "ns" "name") := ⟨rfl, rfl⟩

/-- C3 amended: on a well-formed path with a configured kubeconfig, a
fetch error and a missing key both make GetString return the same
"Key ... does not exist" error; fetch failures are conflated with
key-not-found. -/
theorem c3_fetch_error_conflated (f : k8s.K8sGetSecret) (p : k8s.provider)
    (path ns secretName key : String)
    (hsplit : goSplit path '/' = [ns, secretName, key])
    (hkc : p.KubeConfigPath ≠ "")
    (h : (∃ e, f ns secretName p.KubeConfigPath p.KubeContext = .error e) ∨
      (∃ data, f ns secretName p.KubeConfigPath p.KubeContext = .ok data ∧
        data.lookup key = none)) :
    k8s.GetString f p path = .error (k8s.keyNotFoundError key ns secretName) := by
  unfold k8s.GetString
  rw [hsplit]
  rcases h with ⟨e, he⟩ | ⟨data, hd, hk⟩
  · simp [hkc, he]
  · simp [hkc, hd, hk]

/-- Witness for C3 amended at a concrete failing fetch. -/
theorem c3_fetch_error_conflated_witness :
    k8s.GetString k8sFetchFail k8sProviderSample "ns/name/key" =
      .error (k8s.keyNotFoundError "key" "ns" "name") :=
  c3_fetch_error_conflated k8sFetchFail k8sProviderSample "ns/name/key" "ns" "name" "key"
    (by decide) (by decide)
    (Or.inl ⟨⟨"Unable to get the secret from Kubernetes: connection refused"⟩, rfl⟩)

/-- C4 counterexample: with optional=true (and a fallback configured), a
client-construction failure is NOT absorbed into an empty success or a
fallback: the raw construction error is surfaced, unwrapped. -/
theorem c4_construction_error_not_policed_counterexample :
    gcpOptionalProvider.optional = true ∧
    gcpOptionalProvider.fallback = some "fb" ∧
    gcpsecrets.GetString gcpBackendConnFail gcpOptionalProvider "proj/name" =
      .err ⟨"connection refused"⟩ := by
  refine ⟨rfl, rfl, ?_⟩; decide

/-- C4 amended: a client-construction failure bypasses the missing-value
policy entirely: getSecretBytes and GetString return the construction
error unchanged (not wrapped), whatever optional and fallback are. -/
theorem c4_construction_error_bypasses_policy (b : gcpsecrets.GcpBackend)
    (p : gcpsecrets.provider) (key : String) (e : GoError)
    (h : b.newClient = .error e) :
    gcpsecrets.getSecretBytes b p key = .err e ∧
    gcpsecrets.GetString b p key = .err e := by
  have h1 : gcpsecrets.getSecretBytes b p key = .err e := by
    unfold gcpsecrets.getSecretBytes
    rw [h]
  exact ⟨h1, by unfold gcpsecrets.GetString; rw [h1]; try rfl⟩

/-- Witness for C4 amended at a concrete construction failure. -/
theorem c4_construction_error_bypasses_policy_witness :
    gcpsecrets.getSecretBytes gcpBackendConnFail gcpOptionalProvider "proj/name" =
      .err ⟨"connection refused"⟩ ∧
    gcpsecrets.GetString gcpBackendConnFail gcpOptionalProvider "proj/name" =
      .err ⟨"connection refused"⟩ :=
  c4_construction_error_bypasses_policy gcpBackendConnFail gcpOptionalProvider "proj/name"
    ⟨"connection refused"⟩ rfl

/-- C5: with optional=true, a failing fetch yields nil bytes and GetString
returns ("", nil) — whatever the fallback field holds. -/
theorem c5_optional_precedes_fallback (b : gcpsecrets.GcpBackend) (p : gcpsecrets.provider)
    (key proj secretName : String) (e : GoError)
    (hopt : p.optional = true)
    (hclient : b.newClient = .ok ())
    (hsplit : goSplitN2 key '/' = [proj, secretName])
    (hfetch : b.accessSecretVersion (gcpsecrets.gcpName proj secretName p.version) = .error e) :
    gcpsecrets.getSecretBytes b p key = .ok none ∧
    gcpsecrets.GetString b p key = .ok "" := by
  have h1 : gcpsecrets.getSecretBytes b p key = .ok none := by
    unfold gcpsecrets.getSecretBytes
    rw [hclient, hsplit]
    simp [hfetch, hopt]
  exact ⟨h1, by unfold gcpsecrets.GetString; rw [h1]; try rfl⟩

/-- Witness for C5 with a fallback also configured. -/
theorem c5_optional_precedes_fallback_witness :
    gcpsecrets.getSecretBytes gcpBackendFetchFail gcpOptionalProvider "proj/name" = .ok none ∧
    gcpsecrets.GetString gcpBackendFetchFail gcpOptionalProvider "proj/name" = .ok "" :=
  c5_optional_precedes_fallback gcpBackendFetchFail gcpOptionalProvider "proj/name" "proj" "name"
    ⟨"rpc error: NotFound"⟩ rfl rfl (by decide) rfl

/-- C6: a provider built by New from a config where fallback_value exists
with value x (possibly ""), not optional, returns x with nil error on a
failing fetch. -/
theorem c6_fallback_substituted (cfg : StaticConfig) (b : gcpsecrets.GcpBackend)
    (key proj secretName x : String) (e : GoError)
    (hfb : cfg.existsKey "fallback_value" = true)
    (hx : cfg.string "fallback_value" = x)
    (hopt : (gcpsecrets.New cfg).optional = false)
    (hclient : b.newClient = .ok ())
    (hsplit : goSplitN2 key '/' = [proj, secretName])
    (hfetch : b.accessSecretVersion
      (gcpsecrets.gcpName proj secretName (gcpsecrets.New cfg).version) = .error e) :
    gcpsecrets.GetString b (gcpsecrets.New cfg) key = .ok x := by
  have hfallback : (gcpsecrets.New cfg).fallback = some x := by
    unfold gcpsecrets.New
    simp [hfb, hx]
  have h1 : gcpsecrets.getSecretBytes b (gcpsecrets.New cfg) key = .ok (some x) := by
    unfold gcpsecrets.getSecretBytes
    rw [hclient, hsplit]
    simp [hfetch, hopt, hfallback]
  unfold gcpsecrets.GetString
  rw [h1]; try rfl

/-- Witness for C6 with an explicitly empty fallback string. -/
theorem c6_fallback_substituted_witness :
    gcpsecrets.GetString gcpBackendFetchFail (gcpsecrets.New cfgFallbackEmpty) "proj/name" =
      .ok "" :=
  c6_fallback_substituted cfgFallbackEmpty gcpBackendFetchFail "proj/name" "proj" "name" ""
    ⟨"rpc error: NotFound"⟩ rfl rfl rfl rfl (by decide) rfl

/-- C7: not optional, no fallback: a failing fetch surfaces the fetch
error wrapped with the "failed to get secret" prefix. -/
theorem c7_wrapped_error (b : gcpsecrets.GcpBackend) (p : gcpsecrets.provider)
    (key proj secretName : String) (e : GoError)
    (hopt : p.optional = false)
    (hfb : p.fallback = none)
    (hclient : b.newClient = .ok ())
    (hsplit : goSplitN2 key '/' = [proj, secretName])
    (hfetch : b.accessSecretVersion (gcpsecrets.gcpName proj secretName p.version) = .error e) :
    gcpsecrets.GetString b p key = .err ⟨"failed to get secret: " ++ e.msg⟩ := by
  have h1 : gcpsecrets.getSecretBytes b p key = .err ⟨"failed to get secret: " ++ e.msg⟩ := by
    unfold gcpsecrets.getSecretBytes
    rw [hclient, hsplit]
    simp [hfetch, hopt, hfb]
  unfold gcpsecrets.GetString
  rw [h1]; try rfl

/-- Witness for C7 at a concrete failing fetch. -/
theorem c7_wrapped_error_witness :
    gcpsecrets.GetString gcpBackendFetchFail gcpPlainProvider "proj/name" =
      .err ⟨"failed to get secret: rpc error: NotFound"⟩ :=
  c7_wrapped_error gcpBackendFetchFail gcpPlainProvider "proj/name" "proj" "name"
    ⟨"rpc error: NotFound"⟩ rfl rfl rfl (by decide) rfl

/-- C8: a 3-segment split yields (namespace, secretName, key) in that
order and those coordinates are what reach the backend; any other segment
count yields the invalid-path error for every backend oracle and every
provider (so neither the credential check nor the backend is consulted). -/
theorem c8_path_parsing (f : k8s.K8sGetSecret) (p : k8s.provider) (path : String) :
    (∀ ns secretName key, goSplit path '/' = [ns, secretName, key] →
      p.KubeConfigPath ≠ "" →
      k8s.GetString f p path =
        match f ns secretName p.KubeConfigPath p.KubeContext with
        | .error _ => .error (k8s.keyNotFoundError key ns secretName)
        | .ok secretData =>
          match secretData.lookup key with
          | none => .error (k8s.keyNotFoundError key ns secretName)
          | some secret => .ok secret) ∧
    ((goSplit path '/').length ≠ 3 →
      k8s.GetString f p path = .error (k8s.invalidPathError path)) := by
  constructor
  · intro ns secretName key hsplit hkc
    unfold k8s.GetString
    rw [hsplit]
    simp [hkc]
  · intro hlen
    unfold k8s.GetString
    rcases h : goSplit path '/' with _ | ⟨a, _ | ⟨b, _ | ⟨c, _ | ⟨d, l⟩⟩⟩⟩ <;>
      first | rfl | (exact absurd (by simp [h]) hlen)

/-- Witness for C8: both conjuncts applied at concrete paths. -/
theorem c8_path_parsing_witness :
    k8s.GetString k8sSampleFetch k8sProviderSample "ns/name/key" =
      .ok "ns|name|/home/user/.kube/config|ctx" ∧
    k8s.GetString k8sSampleFetch k8sProviderSample "ns/name" =
      .error (k8s.invalidPathError "ns/name") :=
  ⟨((c8_path_parsing k8sSampleFetch k8sProviderSample "ns/name/key").1 "ns" "name" "key"
      (by decide) (by decide)).trans rfl,
    (c8_path_parsing k8sSampleFetch k8sProviderSample "ns/name").2 (by decide)⟩

/-- C9: GetStringMap of the cluster-store provider is the constant
(nil, capability error): independent of the backend oracle, the provider
and the path. -/
theorem c9_getstringmap_unsupported (f : k8s.K8sGetSecret) (p : k8s.provider) (path : String) :
    k8s.GetStringMap f p path =
      (none, some ⟨"This provider does not support values from URI fragments"⟩) := rfl

/-- C10: with optional=true, a failing fetch makes GetStringMap return a
non-nil empty map with nil error (the suppressed empty payload is
unmarshalled from ""), and a secret stored as the empty document gives
the identical result. -/
theorem c10_optional_empty_map {α : Type}
    (yamlUnmarshal : String → List (String × α) → Except GoError (List (String × α)))
    (b bEmptyDoc : gcpsecrets.GcpBackend) (p : gcpsecrets.provider)
    (key proj secretName : String) (e : GoError)
    (hyaml : yamlUnmarshal "" [] = .ok [])
    (hopt : p.optional = true)
    (hclient : b.newClient = .ok ())
    (hsplit : goSplitN2 key '/' = [proj, secretName])
    (hfetch : b.accessSecretVersion (gcpsecrets.gcpName proj secretName p.version) = .error e)
    (hclient2 : bEmptyDoc.newClient = .ok ())
    (hfetch2 : bEmptyDoc.accessSecretVersion (gcpsecrets.gcpName proj secretName p.version) =
      .ok (some "")) :
    gcpsecrets.GetStringMap yamlUnmarshal b p key = .ok (some []) ∧
    gcpsecrets.GetStringMap yamlUnmarshal bEmptyDoc p key = .ok (some []) := by
  have hs : gcpsecrets.GetString b p key = .ok "" := by
    have h1 : gcpsecrets.getSecretBytes b p key = .ok none := by
      unfold gcpsecrets.getSecretBytes
      rw [hclient, hsplit]
      simp [hfetch, hopt]
    unfold gcpsecrets.GetString
    rw [h1]; try rfl
  have hs2 : gcpsecrets.GetString bEmptyDoc p key = .ok "" := by
    have h1 : gcpsecrets.getSecretBytes bEmptyDoc p key = .ok (some "") := by
      unfold gcpsecrets.getSecretBytes
      rw [hclient2, hsplit]
      simp [hfetch2]
    unfold gcpsecrets.GetString
    rw [h1]; try rfl
  refine ⟨?_, ?_⟩
  · simp [gcpsecrets.GetStringMap, hs, hyaml]
  · simp [gcpsecrets.GetStringMap, hs2, hyaml]

/-- Witness for C10 with a concrete yaml oracle and backends. -/
theorem c10_optional_empty_map_witness :
    gcpsecrets.GetStringMap yamlKeepMap gcpBackendFetchFail gcpOptionalProvider "proj/name" =
      .ok (some []) ∧
    gcpsecrets.GetStringMap yamlKeepMap gcpBackendEmptyDoc gcpOptionalProvider "proj/name" =
      .ok (some []) :=
  c10_optional_empty_map yamlKeepMap gcpBackendFetchFail gcpBackendEmptyDoc gcpOptionalProvider
    "proj/name" "proj" "name" ⟨"rpc error: NotFound"⟩ rfl rfl rfl (by decide) rfl rfl rfl

end Vals
